import Mathlib

/-!
Shallow embedding of `src/backup_manager.py` (class `BackupManager`).

The filesystem is modelled explicitly:
* a source tree is a list of `SrcEntry` (one per regular file visited by
  `os.walk`, each carrying its relative path, the chain of destination
  parent directories mirroring its relative parent path, and its stat
  metadata);
* the destination is a `DestState`: an association list of files keyed by
  relative path, a list of existing directories, and the free-byte count
  that `os.statvfs` reports.

Python exceptions raised by the OS are modelled by per-entry injection
flags: `statFails` (a `stat()` call on this entry raises, lines 75-76,
83, 121-122, 130), `mkdirFails` (`dest_file.parent.mkdir` raises, line
113), `copyFails` (`shutil.copy2` raises, line 134).  Log output is a
list of `LogEvent`s carrying the numeric payloads of the corresponding
`self.logger` calls.
-/

namespace BackupManager

/-- Stat metadata of a regular file: `st_size` and `st_mtime`. -/
structure FileMeta where
  size : Nat
  mtime : Nat
deriving DecidableEq

/-- One regular file produced by `os.walk(self.source_path)`:
its relative path, the destination parent-directory chain that
`dest_file.parent.mkdir(parents=True, exist_ok=True)` would create,
its metadata, and the exception-injection flags. -/
structure SrcEntry where
  path : String
  parents : List String
  meta : FileMeta
  statFails : Bool
  mkdirFails : Bool
  copyFails : Bool
deriving DecidableEq

/-- Destination drive state: files by relative path, directories, and the
free bytes that `get_drive_space` (os.statvfs, lines 53-57) reports. -/
structure DestState where
  files : List (String × FileMeta)
  dirs : List String
  free : Nat
deriving DecidableEq

/-- Lookup of a relative path in a file table. -/
def listLookup : List (String × FileMeta) → String → Option FileMeta
  | [], _ => none
  | (q, n) :: rest, p => if q = p then some n else listLookup rest p

/-- `dest_file.exists()` / `dest_file.stat()` combined: the metadata of the
destination file at relative path `p`, if present. -/
def lookupFile (d : DestState) (p : String) : Option FileMeta :=
  listLookup d.files p

/-- Effect of `shutil.copy2(source_file, dest_file)` (line 134) on the file
table: `copy2` preserves size and modification time, so the destination
record becomes the source metadata (overwriting any existing record). -/
def setFile (fs : List (String × FileMeta)) (p : String) (m : FileMeta) :
    List (String × FileMeta) :=
  match fs with
  | [] => [(p, m)]
  | (q, n) :: rest =>
    if q = p then (q, m) :: rest else (q, n) :: setFile rest p m

/-- One directory creation with `exist_ok=True`: a no-op when the directory
already exists. -/
def addDir (ds : List String) (p : String) : List String :=
  if p ∈ ds then ds else ds ++ [p]

/-- `mkdir(parents=True, exist_ok=True)`: create every missing directory of
the parent chain (line 113). -/
def addDirs (ds : List String) (ps : List String) : List String :=
  ps.foldl addDir ds

/-- Log events emitted through `self.logger`, with their numeric payloads. -/
inductive LogEvent where
  | startSync
  | warnStat (path : String)
  | planInfo (count size : Nat)
  | largeFile (path : String) (size : Nat)
  | progress (copied total size : Nat)
  | skippedSoFar (copied : Nat)
  | copyError (path : String)
  | doneInfo (copied size : Nat)
  | backupFailed
  | validationError
deriving DecidableEq

/-- The change-detection test of lines 70-80 and 116-127 applied to the two
stat results: `source_stat.st_mtime > dest_stat.st_mtime or
source_stat.st_size != dest_stat.st_size`. -/
def metaNeedsCopy (src dst : FileMeta) : Bool :=
  decide (dst.mtime < src.mtime) || decide (src.size ≠ dst.size)

/-- The full `should_copy` computation of both passes: `True` when the
destination path does not exist, otherwise the mtime/size test. -/
def should_copy (src : FileMeta) (dm : Option FileMeta) : Bool :=
  match dm with
  | none => true
  | some d => metaNeedsCopy src d

/-- Pass 1, body of the inner loop of `calculate_backup_size`
(lines 64-87): the `(size, count, log)` contribution of one entry.  A
stat failure is caught by the `except (OSError, FileNotFoundError)`
handler, logs a warning and contributes nothing; otherwise the entry
contributes its size exactly when classified Copy. -/
def calcStep (d : DestState) (e : SrcEntry) : Nat × Nat × List LogEvent :=
  if e.statFails then (0, 0, [.warnStat e.path])
  else if should_copy e.meta (lookupFile d e.path) then (e.meta.size, 1, [])
  else (0, 0, [])

/-- Pass 1 loop over the walk.  The Python loop accumulates left to right;
this recursion produces the same totals and the same log sequence. -/
def calcLoop (d : DestState) : List SrcEntry → Nat × Nat × List LogEvent
  | [] => (0, 0, [])
  | e :: rest =>
    let a := calcStep d e
    let b := calcLoop d rest
    (a.1 + b.1, a.2.1 + b.2.1, a.2.2 ++ b.2.2)

/-- `calculate_backup_size` (lines 59-89): returns
`(total_size, file_count, warnings)`. -/
def calculate_backup_size (src : List SrcEntry) (d : DestState) :
    Nat × Nat × List LogEvent :=
  calcLoop d src

/-- Mutable state of the Pass 2 loop of `sync_files`: destination state,
`copied_files`, `copied_size`, and the log so far. -/
structure PassState where
  dest : DestState
  copiedFiles : Nat
  copiedSize : Nat
  log : List LogEvent
deriving DecidableEq

def addLog (s : PassState) (ev : LogEvent) : PassState :=
  { s with log := s.log ++ [ev] }

/-- `self.logger.error(f"Failed to copy ...")` in the per-file `except`
handler (lines 145-146). -/
def logCopyFail (s : PassState) (e : SrcEntry) : PassState :=
  addLog s (.copyError e.path)

/-- Lines 138-140: the every-100-files progress line. -/
def bumpCopy (fileCount : Nat) (s : PassState) : PassState :=
  if s.copiedFiles % 100 = 0 then
    addLog s (.progress s.copiedFiles fileCount s.copiedSize)
  else s

/-- Lines 134-140: the copy succeeded; update the file table, the counters,
and emit the every-100-files progress line.  Free space shrinks by the
copied size (saturating; the code never re-reads it within a run). -/
def finishCopy (fileCount : Nat) (s : PassState) (e : SrcEntry) : PassState :=
  bumpCopy fileCount
    { s with
      dest := { s.dest with
                files := setFile s.dest.files e.path e.meta,
                free := s.dest.free - e.meta.size },
      copiedFiles := s.copiedFiles + 1,
      copiedSize := s.copiedSize + e.meta.size }

/-- Lines 130-140: the Copy branch.  The large-file info line (>100MB) is
emitted before `shutil.copy2`; a copy failure is caught at line 145 and
only logged. -/
def attemptCopy (fileCount : Nat) (s : PassState) (e : SrcEntry) : PassState :=
  let s1 :=
    if 100 * 1024 * 1024 < e.meta.size then
      addLog s (.largeFile e.path e.meta.size)
    else s
  if e.copyFails then logCopyFail s1 e else finishCopy fileCount s1 e

/-- Lines 141-143: the Skip branch only emits the (mislabelled) progress
line when `copied_files % 1000 == 0`; no counter changes. -/
def skipStep (s : PassState) : PassState :=
  if s.copiedFiles % 1000 = 0 then addLog s (.skippedSoFar s.copiedFiles)
  else s

/-- Lines 115-146: the per-file `try` block of Pass 2.  A stat failure
(classification stat at 121-122, or size stat at 130) reaches the
`except` handler and is only logged; otherwise the entry is classified
and either copied or skipped. -/
def tryStep (fileCount : Nat) (s : PassState) (e : SrcEntry) : PassState :=
  if e.statFails then logCopyFail s e
  else if should_copy e.meta (lookupFile s.dest e.path) then
    attemptCopy fileCount s e
  else skipStep s

/-- Line 113: `dest_file.parent.mkdir(parents=True, exist_ok=True)`,
executed before the `try` block. -/
def mkdirStep (s : PassState) (e : SrcEntry) : PassState :=
  { s with dest := { s.dest with dirs := addDirs s.dest.dirs e.parents } }

/-- Pass 2 loop (lines 107-146).  The `mkdir` call sits outside the
per-file `try`, so an exception there escapes the walk: the loop stops
and the failing path is returned as the pending exception. -/
def copyLoop (fileCount : Nat) : List SrcEntry → PassState → PassState × Option String
  | [], s => (s, none)
  | e :: rest, s =>
    if e.mkdirFails then (s, some e.path)
    else copyLoop fileCount rest (tryStep fileCount (mkdirStep s e) e)

/-- Exceptions that escape `sync_files`: the `RuntimeError` of lines
98-100 and an `OSError` escaping from the mkdir at line 113. -/
inductive SyncFatal where
  | insufficientSpace (needed avail : Nat)
  | mkdirError (path : String)
deriving DecidableEq

/-- Result of one `sync_files` call: the escaped exception if any, the
final destination state, the two counters, and the log. -/
structure SyncResult where
  fatal : Option SyncFatal
  dest : DestState
  copiedFiles : Nat
  copiedSize : Nat
  log : List LogEvent
deriving DecidableEq

/-- Wrap up the Pass 2 walk (lines 148-153): with no pending exception the
`Backup completed` line reports `copied_files` and `copied_size`; a
pending mkdir exception reaches the outer `except` which logs
`Backup failed` and re-raises. -/
def finishSync (r : PassState × Option String) : SyncResult :=
  match r.2 with
  | some p =>
    { fatal := some (.mkdirError p), dest := r.1.dest,
      copiedFiles := r.1.copiedFiles, copiedSize := r.1.copiedSize,
      log := r.1.log ++ [.backupFailed] }
  | none =>
    { fatal := none, dest := r.1.dest,
      copiedFiles := r.1.copiedFiles, copiedSize := r.1.copiedSize,
      log := r.1.log ++ [.doneInfo r.1.copiedFiles r.1.copiedSize] }

/-- State at the start of the Pass 2 walk (lines 104-105), after the log
lines of lines 93 and 102 and the Pass 1 warnings. -/
def initPass (src : List SrcEntry) (d : DestState) : PassState :=
  { dest := d, copiedFiles := 0, copiedSize := 0,
    log := (LogEvent.startSync :: (calculate_backup_size src d).2.2)
             ++ [.planInfo (calculate_backup_size src d).2.1
                   (calculate_backup_size src d).1] }

/-- `sync_files` (lines 91-153): Pass 1 sizing, the capacity check
(`backup_size > free_space` raises `RuntimeError`, lines 98-100, caught
and re-raised by the outer `except` at 151-153), then the Pass 2 walk. -/
def sync_files (src : List SrcEntry) (d : DestState) : SyncResult :=
  if d.free < (calculate_backup_size src d).1 then
    { fatal := some (.insufficientSpace (calculate_backup_size src d).1 d.free),
      dest := d, copiedFiles := 0, copiedSize := 0,
      log := (LogEvent.startSync :: (calculate_backup_size src d).2.2)
               ++ [.backupFailed] }
  else
    finishSync (copyLoop (calculate_backup_size src d).2.1 src (initPass src d))

/-- The four facts `validate_drives` (lines 37-48) checks about the two
roots. -/
structure ValidationState where
  sourceExists : Bool
  destExists : Bool
  sourceReadable : Bool
  destWritable : Bool
deriving DecidableEq

/-- The exceptions `validate_drives` can raise. -/
inductive ValError where
  | sourceNotFound
  | destNotFound
  | sourceNotReadable
  | destNotWritable
deriving DecidableEq

/-- `validate_drives` (lines 37-48): each `if not ...: raise` aborts the
method at the first failing check. -/
def validate_drives (v : ValidationState) : Except ValError Unit :=
  if !v.sourceExists then .error .sourceNotFound
  else if !v.destExists then .error .destNotFound
  else if !v.sourceReadable then .error .sourceNotReadable
  else if !v.destWritable then .error .destNotWritable
  else .ok ()

/-- What `run_backup` (lines 155-171) produces: its boolean return value
plus the observable effects of the run. -/
structure RunResult where
  success : Bool
  dest : DestState
  copiedFiles : Nat
  copiedSize : Nat
  log : List LogEvent
deriving DecidableEq

/-- `run_backup`: validation, then `sync_files`; any exception is caught
at line 167 and yields `False`, otherwise `True`. -/
def run_backup (v : ValidationState) (src : List SrcEntry) (d : DestState) :
    RunResult :=
  match validate_drives v with
  | .error _ =>
    { success := false, dest := d, copiedFiles := 0, copiedSize := 0,
      log := [.validationError] }
  | .ok _ =>
    let r := sync_files src d
    { success := r.fatal.isNone, dest := r.dest,
      copiedFiles := r.copiedFiles, copiedSize := r.copiedSize,
      log := r.log }

/-- The one-shot path of `main` (lines 200-203):
`sys.exit(0 if success else 1)`. -/
def exit_code (v : ValidationState) (src : List SrcEntry) (d : DestState) :
    Nat :=
  if (run_backup v src d).success then 0 else 1

/-- Number of per-file copy errors recorded in a log. -/
def copyErrorCount (l : List LogEvent) : Nat :=
  (l.filter fun ev =>
    match ev with
    | .copyError _ => true
    | _ => false).length

/-- Spec-side quantity (from the spec's Report, not from the code, which
keeps no such counter): the number of walked files the change-detection
policy classifies Skip against destination state `d`. -/
def specFilesSkipped (src : List SrcEntry) (d : DestState) : Nat :=
  (src.filter fun e =>
    !e.statFails && !(should_copy e.meta (lookupFile d e.path))).length

/-! ### Helper lemmas -/

theorem addLog_dest (s : PassState) (ev : LogEvent) : (addLog s ev).dest = s.dest :=
  rfl

theorem addLog_copiedFiles (s : PassState) (ev : LogEvent) :
    (addLog s ev).copiedFiles = s.copiedFiles :=
  rfl

theorem addLog_copiedSize (s : PassState) (ev : LogEvent) :
    (addLog s ev).copiedSize = s.copiedSize :=
  rfl

theorem mkdirStep_files (s : PassState) (e : SrcEntry) :
    (mkdirStep s e).dest.files = s.dest.files :=
  rfl

theorem lookupFile_mkdirStep (s : PassState) (e : SrcEntry) (p : String) :
    lookupFile (mkdirStep s e).dest p = lookupFile s.dest p :=
  rfl

theorem mkdirStep_copiedFiles (s : PassState) (e : SrcEntry) :
    (mkdirStep s e).copiedFiles = s.copiedFiles :=
  rfl

theorem mkdirStep_copiedSize (s : PassState) (e : SrcEntry) :
    (mkdirStep s e).copiedSize = s.copiedSize :=
  rfl

theorem mkdirStep_log (s : PassState) (e : SrcEntry) :
    (mkdirStep s e).log = s.log :=
  rfl

theorem listLookup_setFile_self (fs : List (String × FileMeta)) (p : String)
    (m : FileMeta) : listLookup (setFile fs p m) p = some m := by
  induction fs with
  | nil => simp [setFile, listLookup]
  | cons x rest ih =>
    obtain ⟨q, n⟩ := x
    by_cases h : q = p
    · subst h
      simp [setFile, listLookup]
    · simp [setFile, h, listLookup, ih]

theorem listLookup_setFile_ne (fs : List (String × FileMeta)) (p q : String)
    (m : FileMeta) (h : q ≠ p) :
    listLookup (setFile fs p m) q = listLookup fs q := by
  induction fs with
  | nil =>
    simp only [setFile, listLookup]
    rw [if_neg (Ne.symm h)]
  | cons x rest ih =>
    obtain ⟨a, n⟩ := x
    by_cases ha : a = p
    · subst ha
      simp only [setFile, if_pos rfl, listLookup]
      rw [if_neg (Ne.symm h), if_neg (Ne.symm h)]
    · simp [setFile, ha, listLookup, ih]

theorem skipStep_copiedFiles (s : PassState) :
    (skipStep s).copiedFiles = s.copiedFiles := by
  unfold skipStep
  split <;> rfl

theorem skipStep_copiedSize (s : PassState) :
    (skipStep s).copiedSize = s.copiedSize := by
  unfold skipStep
  split <;> rfl

theorem skipStep_dest (s : PassState) : (skipStep s).dest = s.dest := by
  unfold skipStep
  split <;> rfl

theorem skipStep_log (s : PassState) :
    (skipStep s).log = s.log ∨
      (skipStep s).log = s.log ++ [.skippedSoFar s.copiedFiles] := by
  unfold skipStep
  split
  · exact Or.inr rfl
  · exact Or.inl rfl

theorem bumpCopy_dest (fc : Nat) (s : PassState) : (bumpCopy fc s).dest = s.dest := by
  unfold bumpCopy
  split <;> rfl

theorem bumpCopy_copiedFiles (fc : Nat) (s : PassState) :
    (bumpCopy fc s).copiedFiles = s.copiedFiles := by
  unfold bumpCopy
  split <;> rfl

theorem bumpCopy_copiedSize (fc : Nat) (s : PassState) :
    (bumpCopy fc s).copiedSize = s.copiedSize := by
  unfold bumpCopy
  split <;> rfl

theorem finishCopy_dest_files (fc : Nat) (s : PassState) (e : SrcEntry) :
    (finishCopy fc s e).dest.files = setFile s.dest.files e.path e.meta := by
  unfold finishCopy
  rw [bumpCopy_dest]

theorem finishCopy_dirs (fc : Nat) (s : PassState) (e : SrcEntry) :
    (finishCopy fc s e).dest.dirs = s.dest.dirs := by
  unfold finishCopy
  rw [bumpCopy_dest]

theorem finishCopy_copiedFiles (fc : Nat) (s : PassState) (e : SrcEntry) :
    (finishCopy fc s e).copiedFiles = s.copiedFiles + 1 := by
  unfold finishCopy
  rw [bumpCopy_copiedFiles]

theorem finishCopy_copiedSize (fc : Nat) (s : PassState) (e : SrcEntry) :
    (finishCopy fc s e).copiedSize = s.copiedSize + e.meta.size := by
  unfold finishCopy
  rw [bumpCopy_copiedSize]

/-- When the classification stat raises, the per-file `except` handler
only logs: `tryStep` is exactly `logCopyFail`. -/
theorem tryStep_statFail (fc : Nat) (s : PassState) (e : SrcEntry)
    (h : e.statFails = true) : tryStep fc s e = logCopyFail s e := by
  simp [tryStep, h]

/-- When the entry is classified Skip, `tryStep` is exactly the Skip
branch. -/
theorem tryStep_skip (fc : Nat) (s : PassState) (e : SrcEntry)
    (h1 : e.statFails = false)
    (h2 : should_copy e.meta (lookupFile s.dest e.path) = false) :
    tryStep fc s e = skipStep s := by
  simp [tryStep, h1, h2]

/-- A failing `shutil.copy2` leaves the state untouched apart from log
lines, one of which is the per-file error. -/
theorem tryStep_copyFail (fc : Nat) (s : PassState) (e : SrcEntry)
    (h1 : e.statFails = false) (h2 : e.copyFails = true)
    (h3 : should_copy e.meta (lookupFile s.dest e.path) = true) :
    (tryStep fc s e).copiedFiles = s.copiedFiles ∧
      (tryStep fc s e).copiedSize = s.copiedSize ∧
      (tryStep fc s e).dest = s.dest ∧
      LogEvent.copyError e.path ∈ (tryStep fc s e).log := by
  simp only [tryStep, h1, h2, h3, Bool.false_eq_true, if_false, if_true,
    attemptCopy, logCopyFail]
  split <;> simp [addLog]

/-- A successful copy updates the file table at the entry's path and bumps
both counters. -/
theorem tryStep_copy (fc : Nat) (s : PassState) (e : SrcEntry)
    (h1 : e.statFails = false) (h2 : e.copyFails = false)
    (h3 : should_copy e.meta (lookupFile s.dest e.path) = true) :
    (tryStep fc s e).dest.files = setFile s.dest.files e.path e.meta ∧
      (tryStep fc s e).dest.dirs = s.dest.dirs ∧
      (tryStep fc s e).copiedFiles = s.copiedFiles + 1 ∧
      (tryStep fc s e).copiedSize = s.copiedSize + e.meta.size := by
  simp only [tryStep, h1, h2, h3, Bool.false_eq_true, if_false, if_true,
    attemptCopy]
  split <;>
    simp [finishCopy_dest_files, finishCopy_dirs, finishCopy_copiedFiles,
      finishCopy_copiedSize, addLog]

/-- `tryStep` never touches the directory set. -/
theorem tryStep_dirs (fc : Nat) (s : PassState) (e : SrcEntry) :
    (tryStep fc s e).dest.dirs = s.dest.dirs := by
  by_cases h1 : e.statFails = true
  · rw [tryStep_statFail fc s e h1]
    rfl
  · rw [Bool.not_eq_true] at h1
    by_cases h3 : should_copy e.meta (lookupFile s.dest e.path) = true
    · by_cases h2 : e.copyFails = true
      · have h := (tryStep_copyFail fc s e h1 h2 h3).2.2.1
        rw [h]
      · rw [Bool.not_eq_true] at h2
        exact (tryStep_copy fc s e h1 h2 h3).2.1
    · rw [Bool.not_eq_true] at h3
      rw [tryStep_skip fc s e h1 h3, skipStep_dest]

/-- `tryStep` either replaces the record at the entry's own path or leaves
the file table untouched. -/
theorem tryStep_files_cases (fc : Nat) (s : PassState) (e : SrcEntry) :
    (tryStep fc s e).dest.files = setFile s.dest.files e.path e.meta ∨
      (tryStep fc s e).dest.files = s.dest.files := by
  by_cases h1 : e.statFails = true
  · right
    rw [tryStep_statFail fc s e h1]
    rfl
  · rw [Bool.not_eq_true] at h1
    by_cases h3 : should_copy e.meta (lookupFile s.dest e.path) = true
    · by_cases h2 : e.copyFails = true
      · right
        rw [(tryStep_copyFail fc s e h1 h2 h3).2.2.1]
      · rw [Bool.not_eq_true] at h2
        left
        exact (tryStep_copy fc s e h1 h2 h3).1
    · rw [Bool.not_eq_true] at h3
      right
      rw [tryStep_skip fc s e h1 h3, skipStep_dest]

theorem tryStep_lookup_ne (fc : Nat) (s : PassState) (e : SrcEntry) (p : String)
    (h : p ≠ e.path) :
    listLookup (tryStep fc s e).dest.files p = listLookup s.dest.files p := by
  rcases tryStep_files_cases fc s e with hc | hc
  · rw [hc, listLookup_setFile_ne _ _ _ _ h]
  · rw [hc]

theorem copyLoop_cons_ok (fc : Nat) (e : SrcEntry) (rest : List SrcEntry)
    (s : PassState) (h : e.mkdirFails = false) :
    copyLoop fc (e :: rest) s =
      copyLoop fc rest (tryStep fc (mkdirStep s e) e) := by
  simp [copyLoop, h]

theorem copyLoop_cons_abort (fc : Nat) (e : SrcEntry) (rest : List SrcEntry)
    (s : PassState) (h : e.mkdirFails = true) :
    copyLoop fc (e :: rest) s = (s, some e.path) := by
  simp [copyLoop, h]

theorem copyLoop_no_abort (fc : Nat) (src : List SrcEntry) : ∀ s : PassState,
    (∀ e ∈ src, e.mkdirFails = false) → (copyLoop fc src s).2 = none := by
  induction src with
  | nil => intro s _; rfl
  | cons e rest ih =>
    intro s h
    rw [copyLoop_cons_ok fc e rest s (h e (List.mem_cons_self e rest))]
    exact ih _ (fun x hx => h x (List.mem_cons_of_mem e hx))

/-- Processing entries whose paths all differ from `p` leaves the
destination record at `p` unchanged. -/
theorem copyLoop_lookup_not_mem (fc : Nat) (src : List SrcEntry) :
    ∀ (s : PassState) (p : String), p ∉ src.map SrcEntry.path →
    listLookup (copyLoop fc src s).1.dest.files p = listLookup s.dest.files p := by
  induction src with
  | nil => intro s p _; rfl
  | cons e rest ih =>
    intro s p hp
    simp only [List.map_cons, List.mem_cons, not_or] at hp
    by_cases hm : e.mkdirFails = true
    · rw [copyLoop_cons_abort fc e rest s hm]
    · rw [Bool.not_eq_true] at hm
      rw [copyLoop_cons_ok fc e rest s hm, ih _ p hp.2,
        tryStep_lookup_ne fc _ e p hp.1]
      rfl

/-- One failure-free step leaves its own path classified Skip: the copy
preserved size and mtime, or the entry was already Skip. -/
theorem tryStep_establishes_skip (fc : Nat) (s : PassState) (e : SrcEntry)
    (h1 : e.statFails = false) (h2 : e.copyFails = false) :
    should_copy e.meta
      (listLookup (tryStep fc (mkdirStep s e) e).dest.files e.path) = false := by
  by_cases h3 : should_copy e.meta (lookupFile s.dest e.path) = true
  · have hc := (tryStep_copy fc (mkdirStep s e) e h1 h2
      (by rw [lookupFile_mkdirStep]; exact h3)).1
    rw [hc, mkdirStep_files, listLookup_setFile_self]
    simp [should_copy, metaNeedsCopy]
  · rw [Bool.not_eq_true] at h3
    rw [tryStep_skip fc (mkdirStep s e) e h1
        (by rw [lookupFile_mkdirStep]; exact h3),
      skipStep_dest, mkdirStep_files]
    exact h3

/-- After a failure-free walk over distinct paths, every walked entry is
classified Skip against the resulting destination. -/
theorem copyLoop_establishes_skip (fc : Nat) (src : List SrcEntry) :
    ∀ s : PassState,
    (∀ e ∈ src, e.statFails = false ∧ e.copyFails = false ∧ e.mkdirFails = false) →
    (src.map SrcEntry.path).Nodup →
    ∀ e ∈ src, should_copy e.meta
      (listLookup (copyLoop fc src s).1.dest.files e.path) = false := by
  induction src with
  | nil =>
    intro s _ _ e he
    exact absurd he (List.not_mem_nil e)
  | cons x rest ih =>
    intro s hgood hnodup e he
    have hx := hgood x (List.mem_cons_self x rest)
    rw [copyLoop_cons_ok fc x rest s hx.2.2]
    rw [List.map_cons] at hnodup
    rcases List.mem_cons.mp he with rfl | hr
    · have hnot : e.path ∉ rest.map SrcEntry.path :=
        (List.nodup_cons.mp hnodup).1
      rw [copyLoop_lookup_not_mem fc rest _ e.path hnot]
      exact tryStep_establishes_skip fc s e hx.1 hx.2.1
    · exact ih _ (fun y hy => hgood y (List.mem_cons_of_mem x hy))
        ((List.nodup_cons.mp hnodup).2) e hr

/-- A walk in which every entry is classified Skip copies nothing and
leaves the file table untouched. -/
theorem copyLoop_all_skip (fc : Nat) (src : List SrcEntry) : ∀ s : PassState,
    (∀ e ∈ src, e.statFails = false) →
    (∀ e ∈ src, should_copy e.meta (listLookup s.dest.files e.path) = false) →
    (copyLoop fc src s).1.copiedFiles = s.copiedFiles ∧
      (copyLoop fc src s).1.copiedSize = s.copiedSize ∧
      (copyLoop fc src s).1.dest.files = s.dest.files := by
  induction src with
  | nil => intro s _ _; exact ⟨rfl, rfl, rfl⟩
  | cons x rest ih =>
    intro s hstat hskip
    by_cases hm : x.mkdirFails = true
    · rw [copyLoop_cons_abort fc x rest s hm]
      exact ⟨rfl, rfl, rfl⟩
    · rw [Bool.not_eq_true] at hm
      rw [copyLoop_cons_ok fc x rest s hm]
      have hx1 := hstat x (List.mem_cons_self x rest)
      have hx3 : should_copy x.meta (lookupFile (mkdirStep s x).dest x.path) = false := by
        rw [lookupFile_mkdirStep]
        exact hskip x (List.mem_cons_self x rest)
      rw [tryStep_skip fc (mkdirStep s x) x hx1 hx3]
      have hrest := ih (skipStep (mkdirStep s x))
        (fun y hy => hstat y (List.mem_cons_of_mem x hy))
        (fun y hy => by
          rw [skipStep_dest, mkdirStep_files]
          exact hskip y (List.mem_cons_of_mem x hy))
      refine ⟨?_, ?_, ?_⟩
      · rw [hrest.1, skipStep_copiedFiles, mkdirStep_copiedFiles]
      · rw [hrest.2.1, skipStep_copiedSize, mkdirStep_copiedSize]
      · rw [hrest.2.2, skipStep_dest, mkdirStep_files]

/-- C7: The Pass 1 capacity estimate's `total_size` equals the sum of the
sizes of exactly those source files classified Copy in Pass 1, and
`file_count` equals the number of such files; files classified Skip or
whose stat raises contribute nothing (lines 59-89). -/
theorem C7_capacity_estimate_sums_copy_files (src : List SrcEntry) (d : DestState) :
    (calculate_backup_size src d).1 =
      ((src.filter fun e =>
          !e.statFails && should_copy e.meta (lookupFile d e.path)).map
        fun e => e.meta.size).sum ∧
    (calculate_backup_size src d).2.1 =
      (src.filter fun e =>
        !e.statFails && should_copy e.meta (lookupFile d e.path)).length := by
  induction src with
  | nil => exact ⟨rfl, rfl⟩
  | cons e rest ih =>
    have hstep : calculate_backup_size (e :: rest) d =
        ((calcStep d e).1 + (calculate_backup_size rest d).1,
         (calcStep d e).2.1 + (calculate_backup_size rest d).2.1,
         (calcStep d e).2.2 ++ (calculate_backup_size rest d).2.2) := rfl
    rw [hstep]
    by_cases h1 : e.statFails = true
    · simp [calcStep, h1, List.filter_cons, ih.1, ih.2]
    · rw [Bool.not_eq_true] at h1
      by_cases h2 : should_copy e.meta (lookupFile d e.path) = true
      · simp [calcStep, h1, h2, List.filter_cons, ih.1, ih.2, Nat.add_comm]
      · rw [Bool.not_eq_true] at h2
        simp [calcStep, h1, h2, List.filter_cons, ih.1, ih.2]

/-- When every stat-able entry is classified Skip, the Pass 1 estimate is
zero bytes and zero files. -/
theorem calc_all_skip (src : List SrcEntry) (d : DestState)
    (h : ∀ e ∈ src, e.statFails = false →
      should_copy e.meta (lookupFile d e.path) = false) :
    (calculate_backup_size src d).1 = 0 ∧
      (calculate_backup_size src d).2.1 = 0 := by
  induction src with
  | nil => exact ⟨rfl, rfl⟩
  | cons e rest ih =>
    have hstep : calculate_backup_size (e :: rest) d =
        ((calcStep d e).1 + (calculate_backup_size rest d).1,
         (calcStep d e).2.1 + (calculate_backup_size rest d).2.1,
         (calcStep d e).2.2 ++ (calculate_backup_size rest d).2.2) := rfl
    rw [hstep]
    have hrest := ih (fun y hy hs => h y (List.mem_cons_of_mem e hy) hs)
    by_cases h1 : e.statFails = true
    · simp [calcStep, h1, hrest.1, hrest.2]
    · rw [Bool.not_eq_true] at h1
      simp [calcStep, h1, h e (List.mem_cons_self e rest) h1, hrest.1, hrest.2]

theorem initPass_dest (src : List SrcEntry) (d : DestState) :
    (initPass src d).dest = d :=
  rfl

theorem finishSync_of_none (r : PassState × Option String) (h : r.2 = none) :
    finishSync r =
      { fatal := none, dest := r.1.dest, copiedFiles := r.1.copiedFiles,
        copiedSize := r.1.copiedSize,
        log := r.1.log ++ [.doneInfo r.1.copiedFiles r.1.copiedSize] } := by
  unfold finishSync
  rw [h]

theorem finishSync_of_some (r : PassState × Option String) (p : String)
    (h : r.2 = some p) :
    finishSync r =
      { fatal := some (.mkdirError p), dest := r.1.dest,
        copiedFiles := r.1.copiedFiles, copiedSize := r.1.copiedSize,
        log := r.1.log ++ [.backupFailed] } := by
  unfold finishSync
  rw [h]

theorem sync_files_capacity_fail (src : List SrcEntry) (d : DestState)
    (h : d.free < (calculate_backup_size src d).1) :
    sync_files src d =
      { fatal := some (.insufficientSpace (calculate_backup_size src d).1 d.free),
        dest := d, copiedFiles := 0, copiedSize := 0,
        log := (LogEvent.startSync :: (calculate_backup_size src d).2.2)
                 ++ [.backupFailed] } := by
  unfold sync_files
  rw [if_pos h]

theorem sync_files_capacity_ok (src : List SrcEntry) (d : DestState)
    (h : ¬ d.free < (calculate_backup_size src d).1) :
    sync_files src d =
      finishSync (copyLoop (calculate_backup_size src d).2.1 src (initPass src d)) := by
  unfold sync_files
  rw [if_neg h]

/-- Combined: capacity passes and no mkdir exception, so the run completes
and the result components come from the Pass 2 walk. -/
theorem sync_files_ok_spec (src : List SrcEntry) (d : DestState)
    (hcap : ¬ d.free < (calculate_backup_size src d).1)
    (hmk : ∀ e ∈ src, e.mkdirFails = false) :
    (sync_files src d).fatal = none ∧
    (sync_files src d).dest =
      (copyLoop (calculate_backup_size src d).2.1 src (initPass src d)).1.dest ∧
    (sync_files src d).copiedFiles =
      (copyLoop (calculate_backup_size src d).2.1 src (initPass src d)).1.copiedFiles ∧
    (sync_files src d).copiedSize =
      (copyLoop (calculate_backup_size src d).2.1 src (initPass src d)).1.copiedSize := by
  rw [sync_files_capacity_ok src d hcap,
    finishSync_of_none _ (copyLoop_no_abort _ _ _ hmk)]
  exact ⟨rfl, rfl, rfl, rfl⟩

theorem mem_addDir_of_mem (ds : List String) (q p : String) (h : p ∈ ds) :
    p ∈ addDir ds q := by
  unfold addDir
  split
  · exact h
  · exact List.mem_append_left _ h

theorem mem_addDir_self (ds : List String) (q : String) : q ∈ addDir ds q := by
  unfold addDir
  split
  · assumption
  · exact List.mem_append_right _ (List.mem_singleton.mpr rfl)

theorem mem_addDirs (ps : List String) : ∀ (ds : List String) (p : String),
    p ∈ ds ∨ p ∈ ps → p ∈ addDirs ds ps := by
  induction ps with
  | nil =>
    intro ds p h
    rcases h with h | h
    · exact h
    · exact absurd h (List.not_mem_nil p)
  | cons q rest ih =>
    intro ds p h
    show p ∈ addDirs (addDir ds q) rest
    rcases h with h | h
    · exact ih _ p (Or.inl (mem_addDir_of_mem ds q p h))
    · rcases List.mem_cons.mp h with rfl | hr
      · exact ih _ p (Or.inl (mem_addDir_self ds p))
      · exact ih _ p (Or.inr hr)

theorem mkdirStep_dirs (s : PassState) (e : SrcEntry) :
    (mkdirStep s e).dest.dirs = addDirs s.dest.dirs e.parents :=
  rfl

/-- The walk never removes a directory. -/
theorem copyLoop_dirs_mono (fc : Nat) (src : List SrcEntry) :
    ∀ (s : PassState) (p : String),
    p ∈ s.dest.dirs → p ∈ (copyLoop fc src s).1.dest.dirs := by
  induction src with
  | nil => intro s p h; exact h
  | cons e rest ih =>
    intro s p h
    by_cases hm : e.mkdirFails = true
    · rw [copyLoop_cons_abort fc e rest s hm]
      exact h
    · rw [Bool.not_eq_true] at hm
      rw [copyLoop_cons_ok fc e rest s hm]
      apply ih
      rw [tryStep_dirs, mkdirStep_dirs]
      exact mem_addDirs e.parents s.dest.dirs p (Or.inl h)

/-- Every walked entry's destination parent chain is present after an
abort-free walk. -/
theorem copyLoop_creates_parents (fc : Nat) (src : List SrcEntry) :
    ∀ s : PassState, (∀ e ∈ src, e.mkdirFails = false) →
    ∀ e ∈ src, ∀ p ∈ e.parents, p ∈ (copyLoop fc src s).1.dest.dirs := by
  induction src with
  | nil =>
    intro s _ e he
    exact absurd he (List.not_mem_nil e)
  | cons x rest ih =>
    intro s hmk e he p hp
    have hx := hmk x (List.mem_cons_self x rest)
    rw [copyLoop_cons_ok fc x rest s hx]
    rcases List.mem_cons.mp he with rfl | hr
    · apply copyLoop_dirs_mono
      rw [tryStep_dirs, mkdirStep_dirs]
      exact mem_addDirs e.parents s.dest.dirs p (Or.inr hp)
    · exact ih _ (fun y hy => hmk y (List.mem_cons_of_mem x hy)) e hr p hp

theorem run_backup_of_val_error (v : ValidationState) (src : List SrcEntry)
    (d : DestState) (err : ValError) (h : validate_drives v = .error err) :
    run_backup v src d =
      { success := false, dest := d, copiedFiles := 0, copiedSize := 0,
        log := [.validationError] } := by
  unfold run_backup
  rw [h]

theorem run_backup_of_val_ok (v : ValidationState) (src : List SrcEntry)
    (d : DestState) (h : validate_drives v = .ok ()) :
    run_backup v src d =
      { success := (sync_files src d).fatal.isNone,
        dest := (sync_files src d).dest,
        copiedFiles := (sync_files src d).copiedFiles,
        copiedSize := (sync_files src d).copiedSize,
        log := (sync_files src d).log } := by
  unfold run_backup
  rw [h]

/-! ### Claim theorems -/

/-- C1: A source file is classified Copy if and only if the destination
path does not exist, or the source mtime is strictly greater than the
destination mtime, or the sizes differ; otherwise Skip.  The first
conjunct states the policy itself (lines 70-80 and 116-127); the second
and third show that the sizing pass counts a file and the copy pass
copies a file exactly according to this policy (absent injected
exceptions). -/
theorem C1_change_detection_policy :
    (∀ (m : FileMeta) (dm : Option FileMeta),
       should_copy m dm = true ↔
         dm = none ∨ ∃ dmm, dm = some dmm ∧
           (dmm.mtime < m.mtime ∨ m.size ≠ dmm.size)) ∧
    (∀ (d : DestState) (e : SrcEntry), e.statFails = false →
       (calcStep d e).2.1 =
         if should_copy e.meta (lookupFile d e.path) then 1 else 0) ∧
    (∀ (fc : Nat) (s : PassState) (e : SrcEntry),
       e.statFails = false → e.copyFails = false →
       (tryStep fc (mkdirStep s e) e).copiedFiles =
         s.copiedFiles +
           (if should_copy e.meta (lookupFile s.dest e.path) then 1 else 0)) := by
  refine ⟨?_, ?_, ?_⟩
  · intro m dm
    cases dm with
    | none => simp [should_copy]
    | some dmm => simp [should_copy, metaNeedsCopy]
  · intro d e h1
    simp only [calcStep, h1, Bool.false_eq_true, if_false]
    split <;> rfl
  · intro fc s e h1 h2
    by_cases h3 : should_copy e.meta (lookupFile s.dest e.path) = true
    · have hc := (tryStep_copy fc (mkdirStep s e) e h1 h2
        (by rw [lookupFile_mkdirStep]; exact h3)).2.2.1
      rw [hc, mkdirStep_copiedFiles, h3]
      simp
    · rw [Bool.not_eq_true] at h3
      rw [tryStep_skip fc (mkdirStep s e) e h1
          (by rw [lookupFile_mkdirStep]; exact h3),
        skipStep_copiedFiles, mkdirStep_copiedFiles, h3]
      simp

/-- Witness for C1: a file absent from the destination is counted by the
sizing pass and copied by the copy pass. -/
theorem C1_change_detection_policy_witness :
    (calcStep ⟨[], [], 100⟩ ⟨"a", [], ⟨3, 7⟩, false, false, false⟩).2.1 = 1 ∧
    (tryStep 5 (mkdirStep ⟨⟨[], [], 100⟩, 0, 0, []⟩
        ⟨"a", [], ⟨3, 7⟩, false, false, false⟩)
        ⟨"a", [], ⟨3, 7⟩, false, false, false⟩).copiedFiles = 1 := by
  constructor
  · rw [C1_change_detection_policy.2.1 ⟨[], [], 100⟩
      ⟨"a", [], ⟨3, 7⟩, false, false, false⟩ rfl]
    decide
  · rw [C1_change_detection_policy.2.2 5 ⟨⟨[], [], 100⟩, 0, 0, []⟩
      ⟨"a", [], ⟨3, 7⟩, false, false, false⟩ rfl rfl]
    decide

/-- C3: When the Pass 1 estimate exceeds the free space read at check
time, `sync_files` raises before the walk: insufficient-space failure,
zero files copied, destination (files, directories and free space)
untouched. -/
theorem C3_insufficient_space_aborts (src : List SrcEntry) (d : DestState)
    (h : d.free < (calculate_backup_size src d).1) :
    (sync_files src d).fatal =
      some (.insufficientSpace (calculate_backup_size src d).1 d.free) ∧
    (sync_files src d).dest = d ∧
    (sync_files src d).copiedFiles = 0 ∧
    (sync_files src d).copiedSize = 0 := by
  rw [sync_files_capacity_fail src d h]
  exact ⟨rfl, rfl, rfl, rfl⟩

/-- Witness for C3: one 10-byte file to copy, 9 free bytes. -/
theorem C3_insufficient_space_aborts_witness :
    (sync_files [⟨"a", ["p"], ⟨10, 5⟩, false, false, false⟩]
        ⟨[], [], 9⟩).fatal = some (.insufficientSpace 10 9) ∧
    (sync_files [⟨"a", ["p"], ⟨10, 5⟩, false, false, false⟩]
        ⟨[], [], 9⟩).dest = ⟨[], [], 9⟩ ∧
    (sync_files [⟨"a", ["p"], ⟨10, 5⟩, false, false, false⟩]
        ⟨[], [], 9⟩).copiedFiles = 0 ∧
    (sync_files [⟨"a", ["p"], ⟨10, 5⟩, false, false, false⟩]
        ⟨[], [], 9⟩).copiedSize = 0 :=
  C3_insufficient_space_aborts _ _ (by decide)

/-- C9: A stat failure during the Pass 1 traversal degrades to a logged
warning: the entry contributes nothing to the estimate (neither bytes
nor count), the warning appears in the log, and such a failure never
makes the run fail (given the run is not aborted by the unrelated
capacity gate or a mkdir exception). -/
theorem C9_stat_failure_degrades_to_warning (d : DestState) (e : SrcEntry)
    (src : List SrcEntry) (hf : e.statFails = true) :
    calcStep d e = (0, 0, [.warnStat e.path]) ∧
    (calculate_backup_size (e :: src) d).1 = (calculate_backup_size src d).1 ∧
    (calculate_backup_size (e :: src) d).2.1 =
      (calculate_backup_size src d).2.1 ∧
    LogEvent.warnStat e.path ∈ (calculate_backup_size (e :: src) d).2.2 ∧
    ((∀ x ∈ e :: src, x.mkdirFails = false) →
      (calculate_backup_size (e :: src) d).1 ≤ d.free →
      (sync_files (e :: src) d).fatal = none) := by
  have hstep : calculate_backup_size (e :: src) d =
      ((calcStep d e).1 + (calculate_backup_size src d).1,
       (calcStep d e).2.1 + (calculate_backup_size src d).2.1,
       (calcStep d e).2.2 ++ (calculate_backup_size src d).2.2) := rfl
  have hcalc : calcStep d e = (0, 0, [.warnStat e.path]) := by
    simp [calcStep, hf]
  refine ⟨hcalc, ?_, ?_, ?_, ?_⟩
  · rw [hstep, hcalc]
    simp
  · rw [hstep, hcalc]
    simp
  · rw [hstep, hcalc]
    simp
  · intro hmk hcap
    exact (sync_files_ok_spec (e :: src) d (Nat.not_lt.mpr hcap) hmk).1

/-- Witness for C9: a failing entry next to a normal one. -/
theorem C9_stat_failure_degrades_to_warning_witness :
    calcStep ⟨[], [], 50⟩ ⟨"z", [], ⟨7, 1⟩, true, false, false⟩ =
      (0, 0, [.warnStat "z"]) ∧
    (calculate_backup_size
        [⟨"z", [], ⟨7, 1⟩, true, false, false⟩,
         ⟨"a", [], ⟨10, 5⟩, false, false, false⟩] ⟨[], [], 50⟩).1 =
      (calculate_backup_size
        [⟨"a", [], ⟨10, 5⟩, false, false, false⟩] ⟨[], [], 50⟩).1 ∧
    (sync_files
        [⟨"z", [], ⟨7, 1⟩, true, false, false⟩,
         ⟨"a", [], ⟨10, 5⟩, false, false, false⟩] ⟨[], [], 50⟩).fatal = none := by
  have h := C9_stat_failure_degrades_to_warning ⟨[], [], 50⟩
    ⟨"z", [], ⟨7, 1⟩, true, false, false⟩
    [⟨"a", [], ⟨10, 5⟩, false, false, false⟩] rfl
  exact ⟨h.1, h.2.1, h.2.2.2.2 (by decide) (by decide)⟩

/-- C2 counterexample: a run whose single file fails to copy still
returns True and exits 0, refuting "success iff no per-file copy error
occurred".  `run_backup` never inspects the per-file errors: they are
caught at line 145 and only logged. -/
theorem C2_success_despite_copy_error_counterexample :
    ¬ (((run_backup ⟨true, true, true, true⟩
          [⟨"x", [], ⟨7, 3⟩, false, false, true⟩] ⟨[], [], 1000⟩).success = true) ↔
        copyErrorCount (run_backup ⟨true, true, true, true⟩
          [⟨"x", [], ⟨7, 3⟩, false, false, true⟩] ⟨[], [], 1000⟩).log = 0) ∧
    exit_code ⟨true, true, true, true⟩
      [⟨"x", [], ⟨7, 3⟩, false, false, true⟩] ⟨[], [], 1000⟩ = 0 := by
  decide

/-- C2 amended: for a run that reaches the copy pass, the overall outcome
is true iff no exception escaped `sync_files` — i.e. validation passed
and neither the capacity gate nor a mkdir exception fired; per-file copy
errors never affect it.  The exit status is 0 exactly when `run_backup`
returned True. -/
theorem C2_success_iff_no_fatal_exception (v : ValidationState)
    (src : List SrcEntry) (d : DestState) :
    ((run_backup v src d).success = true ↔
      validate_drives v = .ok () ∧ (sync_files src d).fatal = none) ∧
    (exit_code v src d = 0 ↔ (run_backup v src d).success = true) := by
  constructor
  · cases h : validate_drives v with
    | error err =>
      rw [run_backup_of_val_error v src d err h]
      simp [h]
    | ok u =>
      cases u
      rw [run_backup_of_val_ok v src d h]
      simp [h, Option.isNone_iff_eq_none]
  · unfold exit_code
    split
    · simp [*]
    · simp [*]

/-- C4 counterexample: the mkdir of line 113 sits outside the per-file
`try`; when it raises on the first file, the run aborts and the second
file — absent from the destination, hence classified Copy — is never
attempted.  A single per-file failure did abort the run. -/
theorem C4_mkdir_failure_aborts_run_counterexample :
    (sync_files [⟨"bad", ["sub"], ⟨1, 1⟩, false, true, false⟩,
        ⟨"a", [], ⟨10, 5⟩, false, false, false⟩] ⟨[], [], 100⟩).fatal =
      some (.mkdirError "bad") ∧
    (sync_files [⟨"bad", ["sub"], ⟨1, 1⟩, false, true, false⟩,
        ⟨"a", [], ⟨10, 5⟩, false, false, false⟩] ⟨[], [], 100⟩).copiedFiles = 0 ∧
    lookupFile (sync_files [⟨"bad", ["sub"], ⟨1, 1⟩, false, true, false⟩,
        ⟨"a", [], ⟨10, 5⟩, false, false, false⟩] ⟨[], [], 100⟩).dest "a" =
      none := by
  decide

/-- C4 amended: failures raised inside the per-file try block — the
classification stat and the copy itself — are logged and the walk
continues with the next file, leaving counters and the file table
untouched; but the parent-directory mkdir runs outside the try block, so
a mkdir failure aborts the whole walk and the remaining files are never
attempted. -/
theorem C4_per_file_error_isolation (fc : Nat) (s : PassState) (e : SrcEntry)
    (rest : List SrcEntry) :
    (e.mkdirFails = false →
      copyLoop fc (e :: rest) s =
        copyLoop fc rest (tryStep fc (mkdirStep s e) e)) ∧
    (e.mkdirFails = false → e.statFails = true →
      tryStep fc (mkdirStep s e) e =
        addLog (mkdirStep s e) (.copyError e.path)) ∧
    (e.statFails = false → e.copyFails = true →
      should_copy e.meta (lookupFile s.dest e.path) = true →
      (tryStep fc (mkdirStep s e) e).copiedFiles = s.copiedFiles ∧
      (tryStep fc (mkdirStep s e) e).dest.files = s.dest.files ∧
      LogEvent.copyError e.path ∈ (tryStep fc (mkdirStep s e) e).log) ∧
    (e.mkdirFails = true → copyLoop fc (e :: rest) s = (s, some e.path)) := by
  refine ⟨?_, ?_, ?_, ?_⟩
  · intro h
    exact copyLoop_cons_ok fc e rest s h
  · intro _ hs
    rw [tryStep_statFail fc (mkdirStep s e) e hs]
    rfl
  · intro h1 h2 h3
    have hc := tryStep_copyFail fc (mkdirStep s e) e h1 h2
      (by rw [lookupFile_mkdirStep]; exact h3)
    refine ⟨?_, ?_, hc.2.2.2⟩
    · rw [hc.1, mkdirStep_copiedFiles]
    · rw [hc.2.2.1]
      rfl
  · intro h
    exact copyLoop_cons_abort fc e rest s h

/-- Witness for C4 amended: a failing copy is absorbed, a failing mkdir
aborts. -/
theorem C4_per_file_error_isolation_witness :
    (tryStep 3 (mkdirStep ⟨⟨[], [], 100⟩, 0, 0, []⟩
        ⟨"x", [], ⟨7, 3⟩, false, false, true⟩)
        ⟨"x", [], ⟨7, 3⟩, false, false, true⟩).copiedFiles = 0 ∧
    LogEvent.copyError "x" ∈ (tryStep 3 (mkdirStep ⟨⟨[], [], 100⟩, 0, 0, []⟩
        ⟨"x", [], ⟨7, 3⟩, false, false, true⟩)
        ⟨"x", [], ⟨7, 3⟩, false, false, true⟩).log ∧
    copyLoop 3 [⟨"m", ["q"], ⟨1, 1⟩, false, true, false⟩]
        ⟨⟨[], [], 100⟩, 0, 0, []⟩ = (⟨⟨[], [], 100⟩, 0, 0, []⟩, some "m") := by
  have h := C4_per_file_error_isolation 3 ⟨⟨[], [], 100⟩, 0, 0, []⟩
    ⟨"x", [], ⟨7, 3⟩, false, false, true⟩ []
  have hcopy := h.2.2.1 rfl rfl (by decide)
  have habort := (C4_per_file_error_isolation 3 ⟨⟨[], [], 100⟩, 0, 0, []⟩
    ⟨"m", ["q"], ⟨1, 1⟩, false, true, false⟩ []).2.2.2 rfl
  exact ⟨hcopy.1, hcopy.2.2, habort⟩

/-- C5 counterexample: with source and destination both missing,
`validate_drives` raises at the first check; the outcome is identical to
the state where only the source is missing, so the single invocation did
not surface the destination violation. -/
theorem C5_validation_short_circuits_counterexample :
    validate_drives ⟨false, false, true, true⟩ = .error .sourceNotFound ∧
    validate_drives ⟨false, false, true, true⟩ =
      validate_drives ⟨false, true, true, true⟩ :=
  ⟨rfl, rfl⟩

/-- C5 amended: the four checks are evaluated in the order source exists,
destination exists, source readable, destination writable, and the
method raises at the first failing one, reporting only that violation
(the five priority conjuncts pin the outcome down for every input, so
they fully determine the evaluation order); validation fails iff some
check fails, and any validation failure aborts the run before traversal
— destination unchanged, nothing copied, run unsuccessful. -/
theorem C5_validation_first_failure_aborts (v : ValidationState)
    (src : List SrcEntry) (d : DestState) :
    (¬ validate_drives v = .ok () ↔
      v.sourceExists = false ∨ v.destExists = false ∨
        v.sourceReadable = false ∨ v.destWritable = false) ∧
    (v.sourceExists = false →
      validate_drives v = .error .sourceNotFound) ∧
    (v.sourceExists = true → v.destExists = false →
      validate_drives v = .error .destNotFound) ∧
    (v.sourceExists = true → v.destExists = true →
      v.sourceReadable = false →
      validate_drives v = .error .sourceNotReadable) ∧
    (v.sourceExists = true → v.destExists = true →
      v.sourceReadable = true → v.destWritable = false →
      validate_drives v = .error .destNotWritable) ∧
    (∀ err, validate_drives v = .error err →
      (run_backup v src d).dest = d ∧
      (run_backup v src d).copiedFiles = 0 ∧
      (run_backup v src d).success = false) := by
  obtain ⟨a, b, c, w⟩ := v
  refine ⟨?_, ?_, ?_, ?_, ?_, fun err h => ?_⟩
  · cases a <;> cases b <;> cases c <;> cases w <;> simp [validate_drives]
  · intro h
    subst h
    rfl
  · intro h1 h2
    subst h1
    subst h2
    rfl
  · intro h1 h2 h3
    subst h1
    subst h2
    subst h3
    rfl
  · intro h1 h2 h3 h4
    subst h1
    subst h2
    subst h3
    subst h4
    rfl
  · rw [run_backup_of_val_error ⟨a, b, c, w⟩ src d err h]
    exact ⟨rfl, rfl, rfl⟩

/-- Witness for C5 amended: destination missing; source unreadable (also
with the destination unwritable, showing check 3 outranks check 4);
destination unwritable alone. -/
theorem C5_validation_first_failure_aborts_witness :
    validate_drives ⟨true, false, true, true⟩ = .error .destNotFound ∧
    validate_drives ⟨true, true, false, false⟩ = .error .sourceNotReadable ∧
    validate_drives ⟨true, true, true, false⟩ = .error .destNotWritable ∧
    (run_backup ⟨true, false, true, true⟩ [] ⟨[], [], 0⟩).dest = ⟨[], [], 0⟩ ∧
    (run_backup ⟨true, false, true, true⟩ [] ⟨[], [], 0⟩).success = false := by
  have h1 := C5_validation_first_failure_aborts ⟨true, false, true, true⟩ []
    ⟨[], [], 0⟩
  have h2 := C5_validation_first_failure_aborts ⟨true, true, false, false⟩ []
    ⟨[], [], 0⟩
  have h3 := C5_validation_first_failure_aborts ⟨true, true, true, false⟩ []
    ⟨[], [], 0⟩
  have e1 := h1.2.2.1 rfl rfl
  exact ⟨e1, h2.2.2.2.1 rfl rfl rfl, h3.2.2.2.2.1 rfl rfl rfl rfl,
    (h1.2.2.2.2.2 .destNotFound e1).1, (h1.2.2.2.2.2 .destNotFound e1).2.2⟩

/-- C6 counterexample: two runs that differ only in one extra
Skip-classified file produce bit-identical results — same counters, same
destination, same log.  No component of the run's outcome records the
number of skipped files, refuting "the final Report contains that
filesSkipped count". -/
theorem C6_report_lacks_skipped_count_counterexample :
    sync_files [⟨"c", [], ⟨10, 9⟩, false, false, false⟩]
        ⟨[("s", ⟨4, 2⟩)], [], 1000⟩ =
      sync_files [⟨"c", [], ⟨10, 9⟩, false, false, false⟩,
          ⟨"s", [], ⟨4, 2⟩, false, false, false⟩]
        ⟨[("s", ⟨4, 2⟩)], [], 1000⟩ ∧
    specFilesSkipped [⟨"c", [], ⟨10, 9⟩, false, false, false⟩]
        ⟨[("s", ⟨4, 2⟩)], [], 1000⟩ = 0 ∧
    specFilesSkipped [⟨"c", [], ⟨10, 9⟩, false, false, false⟩,
        ⟨"s", [], ⟨4, 2⟩, false, false, false⟩]
        ⟨[("s", ⟨4, 2⟩)], [], 1000⟩ = 1 := by
  decide

/-- C6 amended: the code keeps no `filesSkipped` counter.  A file
classified Skip leaves both counters and the destination unchanged (at
most a progress line keyed to `copied_files` is logged), and a completed
run's final report line carries only `copied_files` and `copied_size`. -/
theorem C6_skip_updates_no_counter (fc : Nat) (s : PassState) (e : SrcEntry)
    (h1 : e.statFails = false)
    (h2 : should_copy e.meta (lookupFile s.dest e.path) = false) :
    (tryStep fc s e).copiedFiles = s.copiedFiles ∧
    (tryStep fc s e).copiedSize = s.copiedSize ∧
    (tryStep fc s e).dest = s.dest ∧
    ((tryStep fc s e).log = s.log ∨
      (tryStep fc s e).log = s.log ++ [.skippedSoFar s.copiedFiles]) ∧
    (∀ (src : List SrcEntry) (d : DestState), (sync_files src d).fatal = none →
      ∃ l, (sync_files src d).log =
        l ++ [.doneInfo (sync_files src d).copiedFiles
                (sync_files src d).copiedSize]) := by
  rw [tryStep_skip fc s e h1 h2]
  refine ⟨skipStep_copiedFiles s, skipStep_copiedSize s, skipStep_dest s,
    skipStep_log s, ?_⟩
  intro src d hfat
  by_cases hcap : d.free < (calculate_backup_size src d).1
  · rw [sync_files_capacity_fail src d hcap] at hfat
    simp at hfat
  · rw [sync_files_capacity_ok src d hcap] at hfat ⊢
    cases habort : (copyLoop (calculate_backup_size src d).2.1 src
        (initPass src d)).2 with
    | some p =>
      rw [finishSync_of_some _ p habort] at hfat
      simp at hfat
    | none =>
      rw [finishSync_of_none _ habort]
      exact ⟨(copyLoop (calculate_backup_size src d).2.1 src
        (initPass src d)).1.log, rfl⟩

/-- Witness for C6 amended: a Skip-classified file changes nothing. -/
theorem C6_skip_updates_no_counter_witness :
    (tryStep 1 ⟨⟨[("s", ⟨4, 2⟩)], [], 50⟩, 5, 9, []⟩
        ⟨"s", [], ⟨4, 2⟩, false, false, false⟩).copiedFiles = 5 ∧
    (tryStep 1 ⟨⟨[("s", ⟨4, 2⟩)], [], 50⟩, 5, 9, []⟩
        ⟨"s", [], ⟨4, 2⟩, false, false, false⟩).copiedSize = 9 ∧
    (tryStep 1 ⟨⟨[("s", ⟨4, 2⟩)], [], 50⟩, 5, 9, []⟩
        ⟨"s", [], ⟨4, 2⟩, false, false, false⟩).dest =
      ⟨[("s", ⟨4, 2⟩)], [], 50⟩ := by
  have h := C6_skip_updates_no_counter 1 ⟨⟨[("s", ⟨4, 2⟩)], [], 50⟩, 5, 9, []⟩
    ⟨"s", [], ⟨4, 2⟩, false, false, false⟩ rfl (by decide)
  exact ⟨h.1, h.2.1, h.2.2.1⟩

/-- C8: idempotence.  After a failure-free run over distinct relative
paths with enough free space, `shutil.copy2` has left every copied file
with the source's mtime and size, so an immediate second run over the
unchanged source classifies every file Skip, completes, and copies zero
files and zero bytes. -/
theorem C8_second_run_copies_nothing (src : List SrcEntry) (d : DestState)
    (hgood : ∀ e ∈ src, e.statFails = false ∧ e.copyFails = false ∧
      e.mkdirFails = false)
    (hnodup : (src.map SrcEntry.path).Nodup)
    (hcap : (calculate_backup_size src d).1 ≤ d.free) :
    (sync_files src d).fatal = none ∧
    (∀ e ∈ src, should_copy e.meta
      (lookupFile (sync_files src d).dest e.path) = false) ∧
    (sync_files src (sync_files src d).dest).fatal = none ∧
    (sync_files src (sync_files src d).dest).copiedFiles = 0 ∧
    (sync_files src (sync_files src d).dest).copiedSize = 0 := by
  have hmk : ∀ e ∈ src, e.mkdirFails = false := fun e he => (hgood e he).2.2
  have hs := sync_files_ok_spec src d (Nat.not_lt.mpr hcap) hmk
  have hskip : ∀ e ∈ src, should_copy e.meta
      (lookupFile (sync_files src d).dest e.path) = false := by
    intro e he
    rw [hs.2.1]
    exact copyLoop_establishes_skip _ src (initPass src d) hgood hnodup e he
  have hcalc2 := calc_all_skip src (sync_files src d).dest
    (fun e he _ => hskip e he)
  have hcap2 : ¬ (sync_files src d).dest.free <
      (calculate_backup_size src (sync_files src d).dest).1 := by
    rw [hcalc2.1]
    exact Nat.not_lt.mpr (Nat.zero_le _)
  have hs2 := sync_files_ok_spec src (sync_files src d).dest hcap2 hmk
  have hloop2 := copyLoop_all_skip
    (calculate_backup_size src (sync_files src d).dest).2.1 src
    (initPass src (sync_files src d).dest)
    (fun e he => (hgood e he).1)
    (fun e he => hskip e he)
  refine ⟨hs.1, hskip, hs2.1, ?_, ?_⟩
  · rw [hs2.2.2.1, hloop2.1]
    rfl
  · rw [hs2.2.2.2, hloop2.2.1]
    rfl

/-- Witness for C8: one fresh file, copied on the first run, skipped on
the second. -/
theorem C8_second_run_copies_nothing_witness :
    (sync_files [⟨"a", [], ⟨10, 5⟩, false, false, false⟩]
        ⟨[], [], 100⟩).fatal = none ∧
    (sync_files [⟨"a", [], ⟨10, 5⟩, false, false, false⟩]
        (sync_files [⟨"a", [], ⟨10, 5⟩, false, false, false⟩]
          ⟨[], [], 100⟩).dest).copiedFiles = 0 ∧
    (sync_files [⟨"a", [], ⟨10, 5⟩, false, false, false⟩]
        (sync_files [⟨"a", [], ⟨10, 5⟩, false, false, false⟩]
          ⟨[], [], 100⟩).dest).copiedSize = 0 := by
  have h := C8_second_run_copies_nothing
    [⟨"a", [], ⟨10, 5⟩, false, false, false⟩] ⟨[], [], 100⟩
    (by decide) (by decide) (by decide)
  exact ⟨h.1, h.2.2.2.1, h.2.2.2.2⟩

/-- C10: line 113 creates the destination parent chain of every traversed
file before the Copy/Skip classification, tolerating pre-existing
directories.  Per step this holds whatever the classification or
per-file failures; whole-run, any run that passes validation and the
capacity gate and whose walk completes materializes the mirrored parent
directories of all source files, including those of files classified
Skip. -/
theorem C10_parent_dirs_materialized (src : List SrcEntry) (d : DestState)
    (hcap : (calculate_backup_size src d).1 ≤ d.free)
    (hmk : ∀ e ∈ src, e.mkdirFails = false) :
    (∀ (fc : Nat) (s : PassState) (e : SrcEntry),
      ∀ p ∈ e.parents, p ∈ (tryStep fc (mkdirStep s e) e).dest.dirs) ∧
    ∀ e ∈ src, ∀ p ∈ e.parents, p ∈ (sync_files src d).dest.dirs := by
  constructor
  · intro fc s e p hp
    rw [tryStep_dirs, mkdirStep_dirs]
    exact mem_addDirs e.parents s.dest.dirs p (Or.inr hp)
  · intro e he p hp
    have hs := sync_files_ok_spec src d (Nat.not_lt.mpr hcap) hmk
    rw [hs.2.1]
    exact copyLoop_creates_parents _ src (initPass src d) hmk e he p hp

/-- Witness for C10: the parent of a skipped file in a subdirectory is
present after the run (nothing at all is copied in this run). -/
theorem C10_parent_dirs_materialized_witness :
    "sub" ∈ (sync_files [⟨"sub/b", ["sub"], ⟨20, 5⟩, false, false, false⟩]
        ⟨[("sub/b", ⟨20, 5⟩)], [], 100⟩).dest.dirs ∧
    (sync_files [⟨"sub/b", ["sub"], ⟨20, 5⟩, false, false, false⟩]
        ⟨[("sub/b", ⟨20, 5⟩)], [], 100⟩).copiedFiles = 0 := by
  refine ⟨(C10_parent_dirs_materialized
      [⟨"sub/b", ["sub"], ⟨20, 5⟩, false, false, false⟩]
      ⟨[("sub/b", ⟨20, 5⟩)], [], 100⟩ (by decide) (by decide)).2
    ⟨"sub/b", ["sub"], ⟨20, 5⟩, false, false, false⟩ (by decide)
    "sub" (by decide), ?_⟩
  decide

end BackupManager
